import Mathlib

/-!
Shallow embedding of the task4safety user-management backend
(src/backend/server.js) together with theorems checking the
specification's claims against it.

The embedding models:
- the PostgreSQL users table as a list of user records plus a next-id
  counter (ids are server-assigned serials);
- bcrypt as an abstract one-way salted hash: a hash value records the
  hashed password, the cost factor, and the salt, and comparison checks
  the password component (the functional contract of bcrypt.hash /
  bcrypt.compare);
- jsonwebtoken as abstract signed tokens: signing records the claims,
  the expiry instant (now plus 3600 seconds, from expiresIn "1h") and
  the signing secret; verification succeeds exactly when the secret
  matches and the token is unexpired;
- the Authorization header as an inductive with three shapes mirroring
  the checks in authenticateToken: absent, present but not of the form
  "Bearer ...", or carrying a bearer token;
- each Express handler as a pure function from the request and the
  database state to a response, the new database state, and a flag
  recording whether io.emit("usersUpdated") was broadcast.
-/

namespace Task4Safety

/-- User account status: the status column holds the string "active" or
"blocked"; default is active on creation. -/
inductive Status where
  | active
  | blocked
deriving DecidableEq, Repr

/-- A bcrypt hash value: bcrypt.hash(password, 10) produces a salted
one-way hash; the record keeps the hashed password, cost and salt so
that bcrypt.compare can be modelled. -/
structure BHash where
  pw : String
  cost : Nat
  salt : Nat
deriving DecidableEq, Repr

/-- Model of bcrypt.hash(password, cost) with an explicit salt (the
library draws the salt at random; the embedding makes it a parameter). -/
def bcryptHash (pw : String) (cost salt : Nat) : BHash :=
  ⟨pw, cost, salt⟩

/-- Model of bcrypt.compare(password, storedHash): true exactly when the
password is the one that was hashed. -/
def bcryptCompare (pw : String) (h : BHash) : Bool :=
  pw == h.pw

/-- A row of the users table: id, name, email, password (the bcrypt
hash), status, last_login. -/
structure User where
  id : Nat
  name : String
  email : String
  password : BHash
  status : Status
  last_login : Nat
deriving DecidableEq, Repr

/-- The database: the users table plus the serial counter assigning ids
on insert. -/
structure DB where
  users : List User
  nextId : Nat
deriving DecidableEq, Repr

/-- The JWT payload signed at login: user id and email. -/
structure Claims where
  id : Nat
  email : String
deriving DecidableEq, Repr

/-- A signed token: the claims, the expiry instant, and the secret it
was signed with. -/
structure Token where
  claims : Claims
  exp : Nat
  secret : String
deriving DecidableEq, Repr

/-- jwt.sign(claims, secret, expiresIn "1h"): the expiry is one hour
(3600 seconds) after the signing instant. -/
def jwtSign (c : Claims) (secret : String) (now : Nat) : Token :=
  ⟨c, now + 3600, secret⟩

/-- jwt.verify(token, secret): yields the claims when the token was
signed with the same secret and has not expired, otherwise errors. -/
def jwtVerify (t : Token) (secret : String) (now : Nat) : Option Claims :=
  if t.secret = secret ∧ now < t.exp then some t.claims else none

/-- The Authorization request header as authenticateToken inspects it:
absent, present but not starting with "Bearer ", or a bearer token. -/
inductive AuthHeader where
  | missing
  | nonBearer (s : String)
  | bearer (t : Token)

/-- A row as the list endpoint returns it: the projection SELECT id,
name, email, last_login, status. There is no password field in this
record, so the password hash cannot appear in the response. -/
structure PublicUser where
  id : Nat
  name : String
  email : String
  last_login : Nat
  status : Status
deriving DecidableEq, Repr

/-- Response bodies sent by the handlers. -/
inductive RespBody where
  | err (s : String)
  | msg (s : String)
  | loginOk (m : String) (t : Token)
  | users (l : List PublicUser)
deriving DecidableEq, Repr

/-- An HTTP response: status code and JSON body. -/
structure Response where
  status : Nat
  body : RespBody
deriving DecidableEq, Repr

/-- Result of one request: the response, the database afterwards, and
whether io.emit("usersUpdated") was broadcast. -/
structure EndpointResult where
  resp : Response
  db : DB
  broadcast : Bool
deriving DecidableEq, Repr

/-- The authenticateToken middleware: 401 when the header is missing or
does not start with "Bearer ", 403 when jwt.verify fails, otherwise the
verified claims flow to the handler as req.user. -/
def authenticateToken (h : AuthHeader) (secret : String) (now : Nat) :
    Except Response Claims :=
  match h with
  | .missing => .error ⟨401, .err "Access denied. No token provided."⟩
  | .nonBearer _ => .error ⟨401, .err "Access denied. No token provided."⟩
  | .bearer t =>
    match jwtVerify t secret now with
    | none => .error ⟨403, .err "Invalid token."⟩
    | some c => .ok c

/-- SELECT status FROM users WHERE id = uid (the row, if any). -/
def findById (db : DB) (uid : Nat) : Option User :=
  db.users.find? (fun u => u.id == uid)

/-- SELECT * FROM users WHERE email = e (the first row, if any). -/
def findByEmail (db : DB) (e : String) : Option User :=
  db.users.find? (fun u => u.email == e)

/-- The checkIfBlocked middleware: re-reads the acting user's row; 404
when no row matches the token's id, 403 when the row's status is
blocked, otherwise the handler proceeds. -/
def checkIfBlocked (db : DB) (uid : Nat) : Except Response Unit :=
  match findById db uid with
  | none => .error ⟨404, .err "User not found."⟩
  | some u =>
    if u.status = Status.blocked then
      .error ⟨403, .err "You are blocked. Action not allowed."⟩
    else
      .ok ()

/-- JS truthiness test used on the request-body fields: a field is falsy
when absent (undefined) or the empty string. -/
def isFalsy (s : Option String) : Bool :=
  match s with
  | none => true
  | some v => v == ""

/-- POST /api/register: rejects with 400 when name, email or password is
falsy; otherwise hashes the password with cost 10, inserts an active
user with last_login = now, 201 on success; a unique-constraint
violation on email (SQL error 23505) yields 409. No broadcast. -/
def register (db : DB) (now salt : Nat) (name email password : Option String) :
    EndpointResult :=
  if isFalsy name || isFalsy email || isFalsy password then
    ⟨⟨400, .err "All fields are required."⟩, db, false⟩
  else
    let n := name.getD ""
    let e := email.getD ""
    let p := password.getD ""
    if (findByEmail db e).isSome then
      ⟨⟨409, .err "Email already exists."⟩, db, false⟩
    else
      ⟨⟨201, .msg "User registered successfully!"⟩,
       ⟨db.users ++ [⟨db.nextId, n, e, bcryptHash p 10 salt, Status.active, now⟩],
        db.nextId + 1⟩,
       false⟩

/-- POST /api/login: 400 when email or password is falsy; 401 when no
row matches the email; 403 when the row is blocked; 401 when the
password does not match the stored hash; on success signs a token over
id and email, updates last_login to now, and returns the token. -/
def login (db : DB) (secret : String) (now : Nat) (email password : Option String) :
    EndpointResult :=
  if isFalsy email || isFalsy password then
    ⟨⟨400, .err "Email and password are required."⟩, db, false⟩
  else
    let e := email.getD ""
    let p := password.getD ""
    match findByEmail db e with
    | none => ⟨⟨401, .err "Invalid email or password."⟩, db, false⟩
    | some u =>
      if u.status = Status.blocked then
        ⟨⟨403, .err "User is blocked."⟩, db, false⟩
      else if bcryptCompare p u.password then
        ⟨⟨200, .loginOk "Login successful!" (jwtSign ⟨u.id, u.email⟩ secret now)⟩,
         ⟨db.users.map (fun v => if v.id == u.id then { v with last_login := now } else v),
          db.nextId⟩,
         false⟩
      else
        ⟨⟨401, .err "Invalid email or password."⟩, db, false⟩

/-- The projection SELECT id, name, email, last_login, status (the
password column is not selected). -/
def publicOfUser (u : User) : PublicUser :=
  ⟨u.id, u.name, u.email, u.last_login, u.status⟩

/-- ORDER BY last_login DESC as a relation: a comes before b when a's
last_login is at least b's. -/
def lastLoginGe (a b : User) : Prop :=
  b.last_login ≤ a.last_login

instance : DecidableRel lastLoginGe := fun a b =>
  inferInstanceAs (Decidable (b.last_login ≤ a.last_login))

instance : IsTotal User lastLoginGe :=
  ⟨fun a b => (Nat.le_total b.last_login a.last_login)⟩

instance : IsTrans User lastLoginGe :=
  ⟨fun _ _ _ hab hbc => Nat.le_trans hbc hab⟩

/-- GET /api/users: requires only authenticateToken (no blocked check);
returns id, name, email, last_login, status of every user ordered by
last_login descending. -/
def listUsers (db : DB) (h : AuthHeader) (secret : String) (now : Nat) :
    EndpointResult :=
  match authenticateToken h secret now with
  | .error r => ⟨r, db, false⟩
  | .ok _ =>
    ⟨⟨200, .users ((List.insertionSort lastLoginGe db.users).map publicOfUser)⟩,
     db, false⟩

/-- UPDATE users SET status = st WHERE id = targetId, applied to one
row. -/
def setStatus (targetId : Nat) (st : Status) (u : User) : User :=
  if u.id == targetId then { u with status := st } else u

/-- UPDATE users SET status = st WHERE id = targetId RETURNING *: the
new table and the number of rows matched. -/
def updateStatus (db : DB) (targetId : Nat) (st : Status) : DB × Nat :=
  (⟨db.users.map (setStatus targetId st), db.nextId⟩,
   (db.users.filter (fun u => u.id == targetId)).length)

/-- PUT /api/users/block/:id: authenticateToken, then checkIfBlocked,
then sets the target's status to blocked; 404 when no row matched,
otherwise 200 and a broadcast. -/
def blockUser (db : DB) (h : AuthHeader) (secret : String) (now : Nat)
    (targetId : Nat) : EndpointResult :=
  match authenticateToken h secret now with
  | .error r => ⟨r, db, false⟩
  | .ok c =>
    match checkIfBlocked db c.id with
    | .error r => ⟨r, db, false⟩
    | .ok _ =>
      let res := updateStatus db targetId Status.blocked
      if res.2 == 0 then
        ⟨⟨404, .err "User not found."⟩, res.1, false⟩
      else
        ⟨⟨200, .msg "User has been blocked."⟩, res.1, true⟩

/-- PUT /api/users/unblock/:id: same gate; sets the target's status to
active; 404 when no row matched, otherwise 200 and a broadcast. -/
def unblockUser (db : DB) (h : AuthHeader) (secret : String) (now : Nat)
    (targetId : Nat) : EndpointResult :=
  match authenticateToken h secret now with
  | .error r => ⟨r, db, false⟩
  | .ok c =>
    match checkIfBlocked db c.id with
    | .error r => ⟨r, db, false⟩
    | .ok _ =>
      let res := updateStatus db targetId Status.active
      if res.2 == 0 then
        ⟨⟨404, .err "User not found."⟩, res.1, false⟩
      else
        ⟨⟨200, .msg "User has been unblocked."⟩, res.1, true⟩

/-- Modelled from the spec: the DELETE endpoint is absent from
src/backend/server.js (only the client invokes it); spec section 4.6
says it requires a valid token and a caller that is not blocked, removes
the target row permanently (hard delete), responds not-found when no row
matches, and triggers the same broadcast notification as block and
unblock. -/
def deleteUser (db : DB) (h : AuthHeader) (secret : String) (now : Nat)
    (targetId : Nat) : EndpointResult :=
  match authenticateToken h secret now with
  | .error r => ⟨r, db, false⟩
  | .ok c =>
    match checkIfBlocked db c.id with
    | .error r => ⟨r, db, false⟩
    | .ok _ =>
      if (db.users.filter (fun u => u.id == targetId)).length == 0 then
        ⟨⟨404, .err "User not found."⟩, db, false⟩
      else
        ⟨⟨200, .msg "User has been deleted."⟩,
         ⟨db.users.filter (fun u => !(u.id == targetId)), db.nextId⟩,
         true⟩

/-! Concrete data used by the witness theorems. -/

/-- A concrete active user, for witnesses. -/
def adminW : User := ⟨1, "Admin", "admin@x.com", bcryptHash "pw" 10 0, Status.active, 5⟩

/-- A concrete blocked user, for witnesses. -/
def bobW : User := ⟨2, "Bob", "bob@x.com", bcryptHash "pw2" 10 1, Status.blocked, 3⟩

/-- A concrete database holding one active and one blocked user. -/
def dbW : DB := ⟨[adminW, bobW], 3⟩

/-- A valid token for the active user, signed with secret "s" at 0. -/
def tAdminW : Token := jwtSign ⟨1, "admin@x.com"⟩ "s" 0

/-- A valid token for the blocked user. -/
def tBobW : Token := jwtSign ⟨2, "bob@x.com"⟩ "s" 0

/-- A token signed with the wrong secret: jwt.verify rejects it. -/
def tBadW : Token := jwtSign ⟨1, "admin@x.com"⟩ "wrong" 0

/-- A valid token whose user id matches no row in dbW. -/
def tGhostW : Token := jwtSign ⟨9, "ghost@x.com"⟩ "s" 0

/-- C1: every request to a protected endpoint passes two sequential
checks. A missing Authorization header, or one not carrying a bearer
token, is rejected with the no-token error (401); a bearer token that
jwt.verify rejects (invalid or expired) is rejected with the
invalid-token error (403); and on the mutating endpoints, when the
acting user's current status re-read from the store is blocked, the
action is rejected (403) with no state change and no broadcast, even
though the token itself verified. -/
theorem C1_authorization_gate (db : DB) (secret : String) (now : Nat)
    (t : Token) (s : String) :
    (authenticateToken AuthHeader.missing secret now =
      .error ⟨401, .err "Access denied. No token provided."⟩) ∧
    (authenticateToken (AuthHeader.nonBearer s) secret now =
      .error ⟨401, .err "Access denied. No token provided."⟩) ∧
    (jwtVerify t secret now = none →
      authenticateToken (AuthHeader.bearer t) secret now =
        .error ⟨403, .err "Invalid token."⟩) ∧
    (∀ c u, jwtVerify t secret now = some c →
      findById db c.id = some u → u.status = Status.blocked →
      ∀ targetId,
        blockUser db (AuthHeader.bearer t) secret now targetId =
          ⟨⟨403, .err "You are blocked. Action not allowed."⟩, db, false⟩ ∧
        unblockUser db (AuthHeader.bearer t) secret now targetId =
          ⟨⟨403, .err "You are blocked. Action not allowed."⟩, db, false⟩) := by
  refine ⟨rfl, rfl, ?_, ?_⟩
  · intro hv
    simp [authenticateToken, hv]
  · intro c u hv hf hb targetId
    constructor <;>
      simp [blockUser, unblockUser, authenticateToken, hv, checkIfBlocked, hf, hb]

/-- Witness for C1: with the concrete database, a wrong-secret token is
rejected as invalid, and a valid token of the blocked user cannot
mutate. -/
theorem C1_witness :
    authenticateToken (AuthHeader.bearer tBadW) "s" 0 =
      .error ⟨403, .err "Invalid token."⟩ ∧
    blockUser dbW (AuthHeader.bearer tBobW) "s" 0 1 =
      ⟨⟨403, .err "You are blocked. Action not allowed."⟩, dbW, false⟩ :=
  ⟨(C1_authorization_gate dbW "s" 0 tBadW "x").2.2.1 (by decide),
   (((C1_authorization_gate dbW "s" 0 tBobW "x").2.2.2) ⟨2, "bob@x.com"⟩ bobW
     (by decide) (by decide) (by decide) 1).1⟩

/-- C10: a mutating request carrying a valid token whose embedded user
id matches no row in the store is rejected by checkIfBlocked with 404
"User not found.", with no state change and no broadcast. -/
theorem C10_deleted_actor (db : DB) (secret : String) (now : Nat) (t : Token)
    (c : Claims) (targetId : Nat)
    (hv : jwtVerify t secret now = some c)
    (hmiss : findById db c.id = none) :
    blockUser db (AuthHeader.bearer t) secret now targetId =
      ⟨⟨404, .err "User not found."⟩, db, false⟩ ∧
    unblockUser db (AuthHeader.bearer t) secret now targetId =
      ⟨⟨404, .err "User not found."⟩, db, false⟩ := by
  constructor <;>
    simp [blockUser, unblockUser, authenticateToken, hv, checkIfBlocked, hmiss]

/-- Witness for C10: a valid token for an id absent from the concrete
database yields 404 on the block endpoint with no mutation. -/
theorem C10_witness :
    blockUser dbW (AuthHeader.bearer tGhostW) "s" 0 1 =
      ⟨⟨404, .err "User not found."⟩, dbW, false⟩ :=
  (C10_deleted_actor dbW "s" 0 tGhostW ⟨9, "ghost@x.com"⟩ 1
    (by decide) (by decide)).1

/-- C2: for every user whose stored status is blocked (emails being
unique in the store, as the schema enforces), a login attempt with that
user's email and any supplied password fails with the blocked-specific
403 error, never the generic invalid-credentials error, returns no
token, and leaves the store unchanged. -/
theorem C2_blocked_login (db : DB) (secret : String) (now : Nat) (u : User)
    (p : String)
    (hu : u ∈ db.users) (hb : u.status = Status.blocked)
    (huniq : ∀ v ∈ db.users, v.email = u.email → v = u)
    (he : u.email ≠ "") (hp : p ≠ "") :
    login db secret now (some u.email) (some p) =
      ⟨⟨403, .err "User is blocked."⟩, db, false⟩ := by
  have hf : findByEmail db u.email = some u := by
    unfold findByEmail
    cases hfind : db.users.find? (fun v => v.email == u.email) with
    | none =>
      have hnone := List.find?_eq_none.mp hfind u hu
      simp at hnone
    | some v =>
      have hv1 : v ∈ db.users := List.mem_of_find?_eq_some hfind
      have hv2 := List.find?_some hfind
      simp only [beq_iff_eq] at hv2
      rw [huniq v hv1 hv2]
  simp [login, isFalsy, he, hp, hf, hb]

/-- Witness for C2: logging in as the concrete blocked user with any
password yields the blocked error and no token. -/
theorem C2_witness :
    login dbW "s" 0 (some "bob@x.com") (some "zzz") =
      ⟨⟨403, .err "User is blocked."⟩, dbW, false⟩ :=
  C2_blocked_login dbW "s" 0 bobW "zzz" (by decide) (by decide) (by decide)
    (by decide) (by decide)

/-- C7: every successful login (email found, user not blocked, password
matching the stored hash) returns 200 with a token signed over exactly
the user's id and email expiring one hour after issuance, updates that
user's last_login to now, and the token verifies back to claims carrying
the same user id. -/
theorem C7_login_success (db : DB) (secret : String) (now : Nat) (u : User)
    (e p : String) (he : e ≠ "") (hp : p ≠ "")
    (hf : findByEmail db e = some u)
    (hnb : u.status ≠ Status.blocked)
    (hpw : bcryptCompare p u.password = true) :
    login db secret now (some e) (some p) =
      ⟨⟨200, .loginOk "Login successful!" (jwtSign ⟨u.id, u.email⟩ secret now)⟩,
       ⟨db.users.map (fun v => if v.id == u.id then { v with last_login := now } else v),
        db.nextId⟩,
       false⟩ ∧
    (jwtSign ⟨u.id, u.email⟩ secret now).claims.id = u.id ∧
    (jwtSign ⟨u.id, u.email⟩ secret now).exp = now + 3600 ∧
    jwtVerify (jwtSign ⟨u.id, u.email⟩ secret now) secret now =
      some ⟨u.id, u.email⟩ := by
  refine ⟨?_, rfl, rfl, ?_⟩
  · simp [login, isFalsy, he, hp, hf, hnb, hpw]
  · simp [jwtVerify, jwtSign]

/-- Witness for C7: the concrete active user logs in successfully and
receives a token over their id and email with last_login updated. -/
theorem C7_witness :
    login dbW "s" 0 (some "admin@x.com") (some "pw") =
      ⟨⟨200, .loginOk "Login successful!" (jwtSign ⟨adminW.id, adminW.email⟩ "s" 0)⟩,
       ⟨dbW.users.map (fun v => if v.id == adminW.id then { v with last_login := 0 } else v),
        dbW.nextId⟩,
       false⟩ :=
  (C7_login_success dbW "s" 0 adminW "admin@x.com" "pw" (by decide) (by decide)
    (by decide) (by decide) (by decide)).1

/-- setStatus never changes the id column. -/
theorem setStatus_id (tgt : Nat) (st : Status) (u : User) :
    (setStatus tgt st u).id = u.id := by
  unfold setStatus
  by_cases h : (u.id == tgt) = true <;> simp [h]

/-- An UPDATE whose WHERE clause matches no row leaves the table
unchanged. -/
theorem map_setStatus_of_no_match (l : List User) (tgt : Nat) (st : Status)
    (h : ∀ u ∈ l, u.id ≠ tgt) :
    l.map (setStatus tgt st) = l := by
  induction l with
  | nil => rfl
  | cons a l ih =>
    simp only [List.map_cons]
    rw [ih (fun u hu => h u (List.mem_cons_of_mem a hu))]
    have ha := h a (List.mem_cons_self a l)
    simp [setStatus, ha]

/-- When no row has the target id, the WHERE filter is empty. -/
theorem filter_id_eq_nil (l : List User) (tgt : Nat)
    (h : ∀ u ∈ l, u.id ≠ tgt) :
    l.filter (fun u => u.id == tgt) = [] := by
  rw [List.filter_eq_nil_iff]
  intro a ha
  simp [h a ha]

/-- When some row has the target id, the WHERE filter is nonempty. -/
theorem filter_id_length_ne_zero (l : List User) (tgt : Nat) (u : User)
    (hu : u ∈ l) (hid : u.id = tgt) :
    ¬(l.filter (fun v => v.id == tgt)).length = 0 := by
  have hmem : u ∈ l.filter (fun v => v.id == tgt) :=
    List.mem_filter.mpr ⟨hu, by simp [hid]⟩
  intro h0
  rw [List.length_eq_zero] at h0
  rw [h0] at hmem
  exact (List.not_mem_nil u) hmem

/-- C3: for every block (resp. unblock) request that passes the
authorization gate (valid token, acting user present and not blocked):
when no row matches the target id the response is the 404 not-found
error with the store unchanged and no broadcast; when a row matches, the
target's status is set to blocked (resp. active), the broadcast flag is
raised, and the 200 success response is returned. -/
theorem C3_block_unblock (db : DB) (secret : String) (now : Nat) (t : Token)
    (c : Claims) (caller : User) (targetId : Nat)
    (hv : jwtVerify t secret now = some c)
    (hc : findById db c.id = some caller)
    (hnb : caller.status ≠ Status.blocked) :
    ((∀ u ∈ db.users, u.id ≠ targetId) →
      blockUser db (AuthHeader.bearer t) secret now targetId =
        ⟨⟨404, .err "User not found."⟩, db, false⟩ ∧
      unblockUser db (AuthHeader.bearer t) secret now targetId =
        ⟨⟨404, .err "User not found."⟩, db, false⟩) ∧
    ((∃ u ∈ db.users, u.id = targetId) →
      blockUser db (AuthHeader.bearer t) secret now targetId =
        ⟨⟨200, .msg "User has been blocked."⟩,
         ⟨db.users.map (setStatus targetId Status.blocked), db.nextId⟩, true⟩ ∧
      unblockUser db (AuthHeader.bearer t) secret now targetId =
        ⟨⟨200, .msg "User has been unblocked."⟩,
         ⟨db.users.map (setStatus targetId Status.active), db.nextId⟩, true⟩) := by
  constructor
  · intro hnone
    have hfil := filter_id_eq_nil db.users targetId hnone
    have hmapb := map_setStatus_of_no_match db.users targetId Status.blocked hnone
    have hmapa := map_setStatus_of_no_match db.users targetId Status.active hnone
    constructor <;>
      simp [blockUser, unblockUser, authenticateToken, hv, checkIfBlocked, hc, hnb,
            updateStatus, hfil, hmapb, hmapa]
  · rintro ⟨u, hu, hid⟩
    have hne := filter_id_length_ne_zero db.users targetId u hu hid
    constructor <;>
      simp [blockUser, unblockUser, authenticateToken, hv, checkIfBlocked, hc, hnb,
            updateStatus, hne]

/-- Witness for C3: the active user's valid token blocks the existing
user with id 2, raising the broadcast flag. -/
theorem C3_witness :
    blockUser dbW (AuthHeader.bearer tAdminW) "s" 0 2 =
      ⟨⟨200, .msg "User has been blocked."⟩,
       ⟨dbW.users.map (setStatus 2 Status.blocked), dbW.nextId⟩, true⟩ :=
  ((C3_block_unblock dbW "s" 0 tAdminW ⟨1, "admin@x.com"⟩ adminW 2 (by decide)
      (by decide) (by decide)).2 ⟨bobW, by decide, by decide⟩).1

/-- C5: the delete operation (modelled from the spec, the server route
being absent from the given source) under a valid token and a
non-blocked caller: deleting a user id that does not exist returns the
404 not-found error and leaves the store unchanged with no broadcast;
deleting one that exists removes exactly the rows with that id and no
others, permanently, and raises the same broadcast flag as block and
unblock. -/
theorem C5_delete (db : DB) (secret : String) (now : Nat) (t : Token)
    (c : Claims) (caller : User) (targetId : Nat)
    (hv : jwtVerify t secret now = some c)
    (hc : findById db c.id = some caller)
    (hnb : caller.status ≠ Status.blocked) :
    ((∀ u ∈ db.users, u.id ≠ targetId) →
      deleteUser db (AuthHeader.bearer t) secret now targetId =
        ⟨⟨404, .err "User not found."⟩, db, false⟩) ∧
    ((∃ u ∈ db.users, u.id = targetId) →
      deleteUser db (AuthHeader.bearer t) secret now targetId =
        ⟨⟨200, .msg "User has been deleted."⟩,
         ⟨db.users.filter (fun u => !(u.id == targetId)), db.nextId⟩, true⟩) := by
  constructor
  · intro hnone
    have hfil := filter_id_eq_nil db.users targetId hnone
    simp [deleteUser, authenticateToken, hv, checkIfBlocked, hc, hnb, hfil]
  · rintro ⟨u, hu, hid⟩
    have hne := filter_id_length_ne_zero db.users targetId u hu hid
    simp [deleteUser, authenticateToken, hv, checkIfBlocked, hc, hnb, hne]

/-- Witness for C5: deleting the existing user with id 2 removes exactly
that row and broadcasts; the result is evaluated on the concrete
database. -/
theorem C5_witness :
    deleteUser dbW (AuthHeader.bearer tAdminW) "s" 0 2 =
      ⟨⟨200, .msg "User has been deleted."⟩,
       ⟨dbW.users.filter (fun u => !(u.id == 2)), dbW.nextId⟩, true⟩ :=
  (C5_delete dbW "s" 0 tAdminW ⟨1, "admin@x.com"⟩ adminW 2 (by decide)
    (by decide) (by decide)).2 ⟨bobW, by decide, by decide⟩

/-- C4: the list-users endpoint requires only a valid token — there is
no blocked-status check, so the theorem needs no hypothesis about the
caller's stored status and holds in particular when the caller is
blocked (the witness exercises exactly that). The response is 200 with
every user projected to id, name, email, last_login and status (the
PublicUser record has no password field, so the password hash never
appears), the returned list is a permutation of the projection of the
whole table, and it is ordered by most-recent login first. -/
theorem C4_list_users (db : DB) (secret : String) (now : Nat) (t : Token)
    (c : Claims) (hv : jwtVerify t secret now = some c) :
    listUsers db (AuthHeader.bearer t) secret now =
      ⟨⟨200, .users ((List.insertionSort lastLoginGe db.users).map publicOfUser)⟩,
       db, false⟩ ∧
    ((List.insertionSort lastLoginGe db.users).map publicOfUser).Perm
      (db.users.map publicOfUser) ∧
    List.Pairwise (fun a b => b.last_login ≤ a.last_login)
      ((List.insertionSort lastLoginGe db.users).map publicOfUser) := by
  refine ⟨?_, ?_, ?_⟩
  · simp [listUsers, authenticateToken, hv]
  · exact (List.perm_insertionSort lastLoginGe db.users).map publicOfUser
  · exact List.Pairwise.map publicOfUser (fun a b hab => hab)
      (List.sorted_insertionSort lastLoginGe db.users)

/-- Witness for C4: the blocked user's valid token still lists the
users, evaluated on the concrete database. -/
theorem C4_witness :
    listUsers dbW (AuthHeader.bearer tBobW) "s" 0 =
      ⟨⟨200, .users ((List.insertionSort lastLoginGe dbW.users).map publicOfUser)⟩,
       dbW, false⟩ :=
  (C4_list_users dbW "s" 0 tBobW ⟨2, "bob@x.com"⟩ (by decide)).1

/-- C6 (amended): registration responds 400 exactly when one of name,
email, password is falsy, i.e. absent or the empty string (the code
tests JS truthiness, so a present-but-empty field is also rejected);
when all three fields are present and nonempty, it responds 409 exactly
when a row with that email already exists, and a duplicate-email attempt
leaves the store unchanged, in particular preserving that exactly one
record carries that email. -/
theorem C6_register_validation (db : DB) (now salt : Nat)
    (name email password : Option String) :
    (((register db now salt name email password).resp.status = 400) ↔
      (isFalsy name || isFalsy email || isFalsy password) = true) ∧
    ((isFalsy name || isFalsy email || isFalsy password) = false →
      (((register db now salt name email password).resp.status = 409) ↔
        (findByEmail db (email.getD "")).isSome = true)) ∧
    ((isFalsy name || isFalsy email || isFalsy password) = false →
      (findByEmail db (email.getD "")).isSome = true →
      (register db now salt name email password).db = db ∧
      ((db.users.filter (fun u => u.email == email.getD "")).length = 1 →
       ((register db now salt name email password).db.users.filter
          (fun u => u.email == email.getD "")).length = 1)) := by
  refine ⟨?_, ?_, ?_⟩
  · by_cases hfal : (isFalsy name || isFalsy email || isFalsy password) = true
    · simp [register, hfal]
    · have hf' := eq_false_of_ne_true hfal
      by_cases hdup : (findByEmail db (email.getD "")).isSome = true
      · simp [register, hf', hdup]
      · have hd' := eq_false_of_ne_true hdup
        simp [register, hf', hd']
  · intro hf'
    by_cases hdup : (findByEmail db (email.getD "")).isSome = true
    · simp [register, hf', hdup]
    · have hd' := eq_false_of_ne_true hdup
      simp [register, hf', hd']
  · intro hf' hdup
    constructor
    · simp [register, hf', hdup]
    · intro hone
      simp [register, hf', hdup, hone]

/-- Counterexample for C6 as stated: name is present in the request
(it is the empty string, not absent) and email and password are present,
yet registration responds 400, so the response is not 400 only when a
field is absent. -/
theorem C6_counterexample :
    (register ⟨[], 1⟩ 0 0 (some "") (some "a@x.com") (some "pw")).resp.status = 400 ∧
    (some "" : Option String) ≠ none ∧
    (some "a@x.com" : Option String) ≠ none ∧
    (some "pw" : Option String) ≠ none := by
  refine ⟨rfl, ?_, ?_, ?_⟩ <;> simp

/-- Witness for C6: with all fields present and nonempty and the email
already taken in the concrete database, registration responds 409. -/
theorem C6_witness :
    (((register dbW 7 4 (some "Eve") (some "bob@x.com") (some "pw9")).resp.status
        = 409) ↔
      (findByEmail dbW ((some "bob@x.com").getD "")).isSome = true) :=
  (C6_register_validation dbW 7 4 (some "Eve") (some "bob@x.com")
    (some "pw9")).2.1 (by decide)

/-- C8: every successful registration (all fields nonempty, email not
already present) appends exactly one new row carrying the next serial
id, status active, last_login = now, and as password only the bcrypt
hash of the submitted password with cost factor 10; the broadcast flag
stays false. -/
theorem C8_register_success (db : DB) (now salt : Nat) (n e p : String)
    (hn : n ≠ "") (he : e ≠ "") (hp : p ≠ "")
    (hdup : findByEmail db e = none) :
    register db now salt (some n) (some e) (some p) =
      ⟨⟨201, .msg "User registered successfully!"⟩,
       ⟨db.users ++ [⟨db.nextId, n, e, bcryptHash p 10 salt, Status.active, now⟩],
        db.nextId + 1⟩,
       false⟩ := by
  simp [register, isFalsy, hn, he, hp, hdup]

/-- Witness for C8: registering a fresh email on the concrete database
appends exactly the one expected row and does not broadcast. -/
theorem C8_witness :
    register dbW 7 4 (some "Carol") (some "carol@x.com") (some "pw3") =
      ⟨⟨201, .msg "User registered successfully!"⟩,
       ⟨dbW.users ++ [⟨dbW.nextId, "Carol", "carol@x.com",
          bcryptHash "pw3" 10 4, Status.active, 7⟩],
        dbW.nextId + 1⟩,
       false⟩ :=
  C8_register_success dbW 7 4 "Carol" "carol@x.com" "pw3" (by decide) (by decide)
    (by decide) (by decide)

/-- Applying the same status UPDATE twice to a row equals applying it
once. -/
theorem setStatus_setStatus (tgt : Nat) (st : Status) (u : User) :
    setStatus tgt st (setStatus tgt st u) = setStatus tgt st u := by
  unfold setStatus
  by_cases h : (u.id == tgt) = true <;> simp [h]

/-- Looking a row up by id in the table after a status UPDATE finds the
updated image of the row found before. -/
theorem findById_map_setStatus (db : DB) (tgt : Nat) (st : Status) (i : Nat) :
    findById ⟨db.users.map (setStatus tgt st), db.nextId⟩ i =
      (findById db i).map (setStatus tgt st) := by
  unfold findById
  have hp : ((fun u : User => u.id == i) ∘ setStatus tgt st) =
      (fun u : User => u.id == i) := by
    funext u
    simp [Function.comp, setStatus_id]
  rw [List.find?_map, hp]

/-- A status UPDATE does not change how many rows match an id. -/
theorem filter_length_map_setStatus (l : List User) (tgt : Nat) (st : Status)
    (i : Nat) :
    ((l.map (setStatus tgt st)).filter (fun u => u.id == i)).length =
      (l.filter (fun u => u.id == i)).length := by
  have hp : ((fun u : User => u.id == i) ∘ setStatus tgt st) =
      (fun u : User => u.id == i) := by
    funext u
    simp [Function.comp, setStatus_id]
  rw [List.filter_map, hp, List.length_map]

/-- Applying the same status UPDATE twice to the table equals applying
it once. -/
theorem map_setStatus_idem (l : List User) (tgt : Nat) (st : Status) :
    (l.map (setStatus tgt st)).map (setStatus tgt st) =
      l.map (setStatus tgt st) := by
  rw [List.map_map]
  exact List.map_congr_left (fun a _ => setStatus_setStatus tgt st a)

/-- A status UPDATE whose matched rows already carry the new status
leaves the table unchanged. -/
theorem map_setStatus_of_already (l : List User) (tgt : Nat) (st : Status)
    (h : ∀ u ∈ l, u.id = tgt → u.status = st) :
    l.map (setStatus tgt st) = l := by
  induction l with
  | nil => rfl
  | cons a l ih =>
    simp only [List.map_cons]
    rw [ih (fun u hu => h u (List.mem_cons_of_mem a hu))]
    by_cases hai : a.id = tgt
    · have hst := h a (List.mem_cons_self a l) hai
      have hbeq : (a.id == tgt) = true := by simp [hai]
      have hset : setStatus tgt st a = a := by
        unfold setStatus
        rw [if_pos hbeq, ← hst]
      rw [hset]
    · simp [setStatus, hai]

/-- C9: block and unblock are idempotent. Under a passing gate whose
caller is not the target (the caller being active and looked up by the
token id): blocking a target whose rows are already blocked returns the
same 200 success response with the store unchanged (no distinct
already-in-that-state error, though the broadcast still fires); and
running the same block twice — likewise unblock — produces exactly the
result of running it once, response, store and broadcast flag alike.
The unblock statements are symmetric with status active. -/
theorem C9_idempotent (db : DB) (secret : String) (now : Nat) (t : Token)
    (c : Claims) (caller : User) (targetId : Nat)
    (hv : jwtVerify t secret now = some c)
    (hc : findById db c.id = some caller)
    (hnb : caller.status ≠ Status.blocked)
    (hne : c.id ≠ targetId) :
    ((∃ u ∈ db.users, u.id = targetId) →
      (∀ u ∈ db.users, u.id = targetId → u.status = Status.blocked) →
      blockUser db (AuthHeader.bearer t) secret now targetId =
        ⟨⟨200, .msg "User has been blocked."⟩, db, true⟩) ∧
    (blockUser (blockUser db (AuthHeader.bearer t) secret now targetId).db
        (AuthHeader.bearer t) secret now targetId =
      blockUser db (AuthHeader.bearer t) secret now targetId) ∧
    ((∃ u ∈ db.users, u.id = targetId) →
      (∀ u ∈ db.users, u.id = targetId → u.status = Status.active) →
      unblockUser db (AuthHeader.bearer t) secret now targetId =
        ⟨⟨200, .msg "User has been unblocked."⟩, db, true⟩) ∧
    (unblockUser (unblockUser db (AuthHeader.bearer t) secret now targetId).db
        (AuthHeader.bearer t) secret now targetId =
      unblockUser db (AuthHeader.bearer t) secret now targetId) := by
  have hcid : caller.id = c.id := by
    have hfs := List.find?_some
      (show db.users.find? (fun u => u.id == c.id) = some caller from hc)
    simpa using hfs
  have hsetcaller : ∀ st, setStatus targetId st caller = caller := by
    intro st
    have : caller.id ≠ targetId := by rw [hcid]; exact hne
    simp [setStatus, this]
  refine ⟨?_, ?_, ?_, ?_⟩
  · rintro ⟨u, hu, hid⟩ hall
    have hnefil := filter_id_length_ne_zero db.users targetId u hu hid
    have hmap := map_setStatus_of_already db.users targetId Status.blocked hall
    simp [blockUser, authenticateToken, hv, checkIfBlocked, hc, hnb, updateStatus,
          hnefil, hmap]
  · by_cases hex : ∃ u ∈ db.users, u.id = targetId
    · obtain ⟨u, hu, hid⟩ := hex
      have hnefil := filter_id_length_ne_zero db.users targetId u hu hid
      have h1 : blockUser db (AuthHeader.bearer t) secret now targetId =
          ⟨⟨200, .msg "User has been blocked."⟩,
           ⟨db.users.map (setStatus targetId Status.blocked), db.nextId⟩, true⟩ := by
        simp [blockUser, authenticateToken, hv, checkIfBlocked, hc, hnb,
              updateStatus, hnefil]
      rw [h1]
      have hc2 : findById ⟨db.users.map (setStatus targetId Status.blocked),
          db.nextId⟩ c.id = some caller := by
        rw [findById_map_setStatus, hc]
        simp [hsetcaller]
      have hfil2 : ¬((db.users.map (setStatus targetId Status.blocked)).filter
          (fun v => v.id == targetId)).length = 0 := by
        rw [filter_length_map_setStatus]
        exact hnefil
      have hidem := map_setStatus_idem db.users targetId Status.blocked
      simp [blockUser, authenticateToken, hv, checkIfBlocked, hc2, hnb,
            updateStatus, hfil2, hidem]
    · push_neg at hex
      have hfil := filter_id_eq_nil db.users targetId hex
      have hmap := map_setStatus_of_no_match db.users targetId Status.blocked hex
      have h1 : blockUser db (AuthHeader.bearer t) secret now targetId =
          ⟨⟨404, .err "User not found."⟩, db, false⟩ := by
        simp [blockUser, authenticateToken, hv, checkIfBlocked, hc, hnb,
              updateStatus, hfil, hmap]
      rw [h1]
      exact h1
  · rintro ⟨u, hu, hid⟩ hall
    have hnefil := filter_id_length_ne_zero db.users targetId u hu hid
    have hmap := map_setStatus_of_already db.users targetId Status.active hall
    simp [unblockUser, authenticateToken, hv, checkIfBlocked, hc, hnb, updateStatus,
          hnefil, hmap]
  · by_cases hex : ∃ u ∈ db.users, u.id = targetId
    · obtain ⟨u, hu, hid⟩ := hex
      have hnefil := filter_id_length_ne_zero db.users targetId u hu hid
      have h1 : unblockUser db (AuthHeader.bearer t) secret now targetId =
          ⟨⟨200, .msg "User has been unblocked."⟩,
           ⟨db.users.map (setStatus targetId Status.active), db.nextId⟩, true⟩ := by
        simp [unblockUser, authenticateToken, hv, checkIfBlocked, hc, hnb,
              updateStatus, hnefil]
      rw [h1]
      have hc2 : findById ⟨db.users.map (setStatus targetId Status.active),
          db.nextId⟩ c.id = some caller := by
        rw [findById_map_setStatus, hc]
        simp [hsetcaller]
      have hfil2 : ¬((db.users.map (setStatus targetId Status.active)).filter
          (fun v => v.id == targetId)).length = 0 := by
        rw [filter_length_map_setStatus]
        exact hnefil
      have hidem := map_setStatus_idem db.users targetId Status.active
      simp [unblockUser, authenticateToken, hv, checkIfBlocked, hc2, hnb,
            updateStatus, hfil2, hidem]
    · push_neg at hex
      have hfil := filter_id_eq_nil db.users targetId hex
      have hmap := map_setStatus_of_no_match db.users targetId Status.active hex
      have h1 : unblockUser db (AuthHeader.bearer t) secret now targetId =
          ⟨⟨404, .err "User not found."⟩, db, false⟩ := by
        simp [unblockUser, authenticateToken, hv, checkIfBlocked, hc, hnb,
              updateStatus, hfil, hmap]
      rw [h1]
      exact h1

/-- Witness for C9: blocking the concrete user who is already blocked
returns the plain success response and leaves the store unchanged. -/
theorem C9_witness :
    blockUser dbW (AuthHeader.bearer tAdminW) "s" 0 2 =
      ⟨⟨200, .msg "User has been blocked."⟩, dbW, true⟩ :=
  (C9_idempotent dbW "s" 0 tAdminW ⟨1, "admin@x.com"⟩ adminW 2 (by decide)
    (by decide) (by decide) (by decide)).1 ⟨bobW, by decide, by decide⟩
    (by decide)

end Task4Safety
